import Mathlib

/-!
Verification development for the HeteroSync time-synchronization server.

This file gives a shallow embedding, in Lean 4, of the parts of the server
that the checked properties are about:

* the data model (`TimeSyncRecord`, `SampleAnalysis`, `NTPFilterConfig`,
  `AggregatedSyncResult`, `PendingRequest`, `SyncMeasurement`,
  `MultiSyncRequest`);
* the NTP-style selection algorithm of `internal/algorithms`
  (`FilterByRTT`, `FilterByRTTSymmetry`, `RemoveOutliers`,
  `calculateStatistics`, `calculateMedianOffset`, `calculateOffsetStats`,
  `calculateRTTStats`, `calculateConfidence`, `SelectBestMeasurements`);
* the measurement-completion logic of the websocket hub
  (`completeSyncRequest`);
* the sync service (`RequestMultipleTimeSyncs`, limit clamping of the
  list queries) together with a model of the repository queries it calls.

Embedding conventions:

* Go `int`/`int64` are modelled as `ℤ` (the values involved are far from
  the 64-bit overflow boundary in every property below);
* Go `float64` arithmetic is modelled exactly by `ℚ`; `math.Sqrt` values
  (standard deviations, jitter) are represented by the exact square
  (variance) in the computable structures, and by `Real.sqrt` of that
  square where a property mentions them;
* Go `math.Round` (round half away from zero) is `mathRound` below;
* Go integer division (truncation toward zero) is `Int.tdiv`;
* Go `sort.Slice` (an unspecified, not necessarily stable, comparison
  sort) is modelled by `List.insertionSort` with the corresponding
  non-strict comparator;
* nullable pointer fields are `Option`, channels/timers/logging are
  dropped, and the concurrency around the hub is out of scope: the
  completion function is modelled as the pure function of the pending
  request it is.
-/

namespace HeteroSync

/-! ### Basic data model (internal/models/types.go) -/

/-- Device kind; in Go a plain string (`PSG`, `WATCH`, `MOBILE`). -/
abbrev DeviceType := String

/-- `SyncStatus`: Go string constants `"SUCCESS"`, `"PARTIAL"`, `"FAILED"`.
`partialSync` stands for the Go constant `SyncStatusPartial`. -/
inductive SyncStatus where
  | success
  | partialSync
  | failed
deriving DecidableEq, Repr

/-- `TimeSyncRecord` from `internal/models/types.go`.  Timestamps are in
milliseconds, RTTs in microseconds; nullable fields are `Option`. -/
structure TimeSyncRecord where
  ID : ℤ
  Device1ID : String
  Device1Type : DeviceType
  Device1Timestamp : Option ℤ
  Device2ID : String
  Device2Type : DeviceType
  Device2Timestamp : Option ℤ
  ServerRequestTime : ℤ
  ServerResponseTime : Option ℤ
  Device1RTT : Option ℤ
  Device2RTT : Option ℤ
  TimeDifference : Option ℤ
  Status : SyncStatus
  ErrorMessage : Option String
  CreatedAt : ℤ
deriving DecidableEq, Repr

/-- `SampleAnalysis` from `internal/models/types.go`.  `SelectionScore`
is a Go `float64`, modelled exactly by `ℚ`. -/
structure SampleAnalysis where
  Record : TimeSyncRecord
  TotalRTT : ℤ
  RTTDifference : ℤ
  Offset : ℤ
  IsOutlier : Bool
  SelectionScore : ℚ
deriving DecidableEq, Repr

/-- `NTPFilterConfig` from `internal/models/types.go`; the two `float64`
fields are modelled by `ℚ`. -/
structure NTPFilterConfig where
  MinSamples : ℤ
  OutlierThreshold : ℚ
  TopPercentile : ℚ
deriving DecidableEq, Repr

/-- `AggregatedSyncResult` from `internal/models/types.go`.

The Go struct stores `OffsetStdDev`, `MeanRTT`, `Jitter`, `Confidence` as
`float64`.  Here the two square-root-valued fields are represented by
their exact squares (`OffsetVariance`, `RTTVariance`); the reported
standard deviation and jitter are `Real.sqrt` of these (see
`AggregatedSyncResult.OffsetStdDev` and `AggregatedSyncResult.Jitter`
below), and the confidence is the derived `Confidence` function. -/
structure AggregatedSyncResult where
  AggregationID : String
  PairingID : String
  BestOffset : ℤ
  MedianOffset : ℤ
  MeanOffset : ℚ
  OffsetVariance : ℚ
  MinRTT : ℤ
  MaxRTT : ℤ
  MeanRTT : ℚ
  RTTVariance : ℚ
  TotalSamples : ℕ
  ValidSamples : ℕ
  OutlierCount : ℤ
  Measurements : List TimeSyncRecord
  CreatedAt : ℤ
deriving DecidableEq, Repr

/-- `MultiSyncRequest` from `internal/models/types.go`. -/
structure MultiSyncRequest where
  PairingID : String
  SampleCount : ℤ
  IntervalMs : ℤ
  TimeoutSec : ℤ
deriving DecidableEq, Repr

/-! ### Numeric helpers -/

/-- Go `math.Round`: round to the nearest integer, halves away from zero. -/
def mathRound (q : ℚ) : ℤ :=
  if q < 0 then -⌊-q + 1/2⌋ else ⌊q + 1/2⌋

/-- `abs` helper from `internal/algorithms` (absolute value of `int64`). -/
def absInt (n : ℤ) : ℤ :=
  if n < 0 then -n else n

/-- Decides `|x| ≤ t * Real.sqrt v` (for `0 ≤ v`) inside `ℚ`, by squaring.
This is the exact form of the comparison `deviation <= stdDev*threshold`
that `RemoveOutliers` performs on `float64` values, with
`stdDev = Real.sqrt v`; see `absLeMulSqrt_iff`. -/
def absLeMulSqrt (x t v : ℚ) : Bool :=
  if 0 ≤ t then decide (x ^ 2 ≤ t ^ 2 * v) else decide (x = 0 ∧ v = 0)

/-! ### Comparators used by the Go `sort.Slice` calls -/

/-- Ordering of `FilterByRTT`: ascending total RTT. -/
def byTotalRTT (a b : SampleAnalysis) : Prop :=
  a.TotalRTT ≤ b.TotalRTT

instance : DecidableRel byTotalRTT :=
  fun a b => inferInstanceAs (Decidable (a.TotalRTT ≤ b.TotalRTT))

instance : IsTotal SampleAnalysis byTotalRTT :=
  ⟨fun a b => le_total a.TotalRTT b.TotalRTT⟩

instance : IsTrans SampleAnalysis byTotalRTT :=
  ⟨fun _ _ _ h1 h2 => le_trans h1 h2⟩

/-- Ordering of `FilterByRTTSymmetry`: ascending selection score. -/
def byScore (a b : SampleAnalysis) : Prop :=
  a.SelectionScore ≤ b.SelectionScore

instance : DecidableRel byScore :=
  fun a b => inferInstanceAs (Decidable (a.SelectionScore ≤ b.SelectionScore))

instance : IsTotal SampleAnalysis byScore :=
  ⟨fun a b => le_total a.SelectionScore b.SelectionScore⟩

instance : IsTrans SampleAnalysis byScore :=
  ⟨fun _ _ _ h1 h2 => le_trans h1 h2⟩

/-! ### NTP selector (internal/algorithms, part_004) -/

/-- `NewNTPSelector`: zero configuration values are replaced by the
defaults 3 / 2.0 / 0.5. -/
def NewNTPSelector (config : NTPFilterConfig) : NTPFilterConfig :=
  { MinSamples := if config.MinSamples = 0 then 3 else config.MinSamples
    OutlierThreshold :=
      if config.OutlierThreshold = 0 then 2 else config.OutlierThreshold
    TopPercentile :=
      if config.TopPercentile = 0 then 1/2 else config.TopPercentile }

/-- Per-record body of the collection loop of `FilterByRTT`: records
lacking either RTT or the raw time difference are skipped, otherwise the
analysis with the network-delay-compensated offset is produced.  The
compensation is `adjustedOffset = rawOffset - (RTT1/2000 - RTT2/2000)`
(μs → ms, halved), rounded by Go `math.Round`. -/
def analyzeRecord (record : TimeSyncRecord) : Option SampleAnalysis :=
  match record.Device1RTT, record.Device2RTT, record.TimeDifference with
  | some rtt1, some rtt2, some rawOffset =>
    some
      { Record := record
        TotalRTT := rtt1 + rtt2
        RTTDifference := absInt (rtt1 - rtt2)
        Offset :=
          mathRound ((rawOffset : ℚ) - ((rtt1 : ℚ) / 2000 - (rtt2 : ℚ) / 2000))
        IsOutlier := false
        SelectionScore := 0 }
  | _, _, _ => none

/-- `FilterByRTT`: build analyses (skipping incomplete records), sort by
total RTT ascending, keep the top `⌈n · TopPercentile⌉`, or
`min MinSamples n` when that cutoff falls below `MinSamples`. -/
def FilterByRTT (cfg : NTPFilterConfig) (records : List TimeSyncRecord) :
    List SampleAnalysis :=
  let analyses := records.filterMap analyzeRecord
  if analyses.length = 0 then analyses
  else
    let sorted := analyses.insertionSort byTotalRTT
    let cutoff : ℤ := ⌈(analyses.length : ℚ) * cfg.TopPercentile⌉
    let cutoff :=
      if cutoff < cfg.MinSamples then min cfg.MinSamples (analyses.length : ℤ)
      else cutoff
    sorted.take cutoff.toNat

/-- `FilterByRTTSymmetry`: assign `SelectionScore = TotalRTT +
2·RTTDifference` and re-sort ascending by score.  No sample is removed. -/
def FilterByRTTSymmetry (analyses : List SampleAnalysis) :
    List SampleAnalysis :=
  let scored := analyses.map fun a =>
    { a with SelectionScore := (a.TotalRTT : ℚ) + (a.RTTDifference : ℚ) * 2 }
  scored.insertionSort byScore

/-- `calculateOffsetStats`: mean and (exact square of the) standard
deviation of the offsets.  The Go function returns
`(mean, math.Sqrt variance)`; this embedding returns
`(mean, variance)`. -/
def calculateOffsetStats (analyses : List SampleAnalysis) : ℚ × ℚ :=
  if analyses.length = 0 then (0, 0)
  else
    let n : ℚ := analyses.length
    let mean := (analyses.map fun a => (a.Offset : ℚ)).sum / n
    let variance := (analyses.map fun a => ((a.Offset : ℚ) - mean) ^ 2).sum / n
    (mean, variance)

/-- `RemoveOutliers`.  Returns the pair
(all analyses, with `IsOutlier` flags as left by the in-place mutation;
the surviving list).  With fewer than `MinSamples` inputs nothing is
filtered; if filtering would leave fewer than `MinSamples`, the flags are
reset and every sample is kept. -/
def RemoveOutliers (cfg : NTPFilterConfig) (analyses : List SampleAnalysis) :
    List SampleAnalysis × List SampleAnalysis :=
  if analyses.length < cfg.MinSamples then (analyses, analyses)
  else
    let stats := calculateOffsetStats analyses
    let marked := analyses.map fun a =>
      { a with
        IsOutlier :=
          !absLeMulSqrt ((a.Offset : ℚ) - stats.1) cfg.OutlierThreshold stats.2 }
    let filtered := marked.filter fun a => !a.IsOutlier
    if filtered.length < cfg.MinSamples then
      let cleared := analyses.map fun a => { a with IsOutlier := false }
      (cleared, cleared)
    else (marked, filtered)

/-- `calculateMedianOffset`: sort the offsets ascending; odd length takes
the middle element, even length the truncated (Go `int64`) average of the
two middle elements; empty input yields 0. -/
def calculateMedianOffset (analyses : List SampleAnalysis) : ℤ :=
  if analyses.length = 0 then 0
  else
    let offsets := (analyses.map fun a => a.Offset).insertionSort (· ≤ ·)
    let mid := analyses.length / 2
    if analyses.length % 2 = 0 then
      Int.tdiv (offsets.getD (mid - 1) 0 + offsets.getD mid 0) 2
    else offsets.getD mid 0

/-- `calculateRTTStats`: minimum, maximum and mean of the total RTTs,
and the exact square of the jitter (the Go function returns
`math.Sqrt` of the last component). -/
def calculateRTTStats : List SampleAnalysis → ℤ × ℤ × ℚ × ℚ
  | [] => (0, 0, 0, 0)
  | a0 :: rest =>
    let l := a0 :: rest
    let minRTT := l.foldl (fun m a => min m a.TotalRTT) a0.TotalRTT
    let maxRTT := l.foldl (fun m a => max m a.TotalRTT) a0.TotalRTT
    let n : ℚ := l.length
    let meanRTT := (l.map fun a => (a.TotalRTT : ℚ)).sum / n
    let variance := (l.map fun a => ((a.TotalRTT : ℚ) - meanRTT) ^ 2).sum / n
    (minRTT, maxRTT, meanRTT, variance)

/-- `calculateConfidence`, with the two square-root-valued inputs taken
in `ℝ` (the Go code passes `offsetStdDev` and `jitter` as `float64`).
Weighted sum of a sample-count factor, an offset-consistency factor and a
network-stability factor, clamped to `[0, 1]`. -/
noncomputable def calculateConfidence (n : ℕ) (offsetStdDev jitter : ℝ) : ℝ :=
  if n = 0 then 0
  else
    let sampleFactor := min ((n : ℝ) / 10) 1
    let offsetFactor := 1 - min (offsetStdDev / 20) 1
    let jitterFactor := 1 - min (jitter / 10000) 1
    max 0 (min 1 (sampleFactor * 0.3 + offsetFactor * 0.4 + jitterFactor * 0.3))

/-- `calculateStatistics`: assemble the aggregated result from the full
record list, the selected analyses (after the RTT and symmetry steps) and
the valid analyses (after outlier removal). -/
def calculateStatistics (allRecords : List TimeSyncRecord)
    (selectedAnalyses validAnalyses : List SampleAnalysis) :
    AggregatedSyncResult :=
  let medianOffset := calculateMedianOffset validAnalyses
  let offsetStats := calculateOffsetStats validAnalyses
  let rttStats := calculateRTTStats validAnalyses
  { AggregationID := ""
    PairingID := ""
    BestOffset := medianOffset
    MedianOffset := medianOffset
    MeanOffset := offsetStats.1
    OffsetVariance := offsetStats.2
    MinRTT := rttStats.1
    MaxRTT := rttStats.2.1
    MeanRTT := rttStats.2.2.1
    RTTVariance := rttStats.2.2.2
    TotalSamples := allRecords.length
    ValidSamples := validAnalyses.length
    OutlierCount := (selectedAnalyses.length : ℤ) - (validAnalyses.length : ℤ)
    Measurements := allRecords
    CreatedAt := 0 }

/-- The reported offset standard deviation (`OffsetStdDev` in Go) is the
square root of the stored exact variance. -/
noncomputable def AggregatedSyncResult.OffsetStdDev
    (r : AggregatedSyncResult) : ℝ :=
  Real.sqrt (r.OffsetVariance : ℝ)

/-- The reported jitter (`Jitter` in Go) is the square root of the stored
exact total-RTT variance. -/
noncomputable def AggregatedSyncResult.Jitter (r : AggregatedSyncResult) : ℝ :=
  Real.sqrt (r.RTTVariance : ℝ)

/-- The confidence stored in the Go result: `calculateConfidence` applied
to the valid-sample count and the reported standard deviation and
jitter. -/
noncomputable def AggregatedSyncResult.Confidence
    (r : AggregatedSyncResult) : ℝ :=
  calculateConfidence r.ValidSamples r.OffsetStdDev r.Jitter

/-- Error results of `SelectBestMeasurements`. -/
inductive SelectorError where
  | noSamples
  | noRTTData
deriving DecidableEq, Repr

/-- `SelectBestMeasurements`: the full pipeline — RTT filter, symmetry
scoring, outlier removal, statistics. -/
def SelectBestMeasurements (cfg : NTPFilterConfig)
    (records : List TimeSyncRecord) :
    Except SelectorError AggregatedSyncResult :=
  if records.length = 0 then .error .noSamples
  else
    let analyses := FilterByRTT cfg records
    if analyses.length = 0 then .error .noRTTData
    else
      let scored := FilterByRTTSymmetry analyses
      let pruned := RemoveOutliers cfg scored
      .ok (calculateStatistics records pruned.1 pruned.2)

/-! ### Hub completion (internal/websocket/hub.go) -/

/-- `PendingRequest` from `internal/websocket/hub.go` (the result channel
and timeout timer are dropped; completion is modelled as a pure
function).  Send/receive times are microseconds, response timestamps
milliseconds. -/
structure PendingRequest where
  RequestID : String
  PairingID : String
  Device1ID : String
  Device2ID : String
  Device1Response : Option ℤ
  Device2Response : Option ℤ
  ServerRequestTime : ℤ
  Device1SendTime : ℤ
  Device2SendTime : ℤ
  Device1ReceiveTime : Option ℤ
  Device2ReceiveTime : Option ℤ
deriving DecidableEq, Repr

/-- `completeSyncRequest`: build the `TimeSyncRecord` for a finished (or
timed-out) pending request.  `device1Type`/`device2Type` are the kinds
looked up from the connected-clients map (the Go zero value `""` when the
device is gone), and `now` stands for `time.Now().UnixMilli()`. -/
def completeSyncRequest (pendingReq : PendingRequest)
    (device1Type device2Type : DeviceType) (now : ℤ) : TimeSyncRecord :=
  let statusAndError : SyncStatus × Option String :=
    match pendingReq.Device1Response, pendingReq.Device2Response with
    | some _, some _ => (.success, none)
    | some _, none => (.partialSync, some "One or more devices did not respond")
    | none, some _ => (.partialSync, some "One or more devices did not respond")
    | none, none => (.failed, some "Both devices failed to respond")
  let device1RTT : Option ℤ :=
    match pendingReq.Device1ReceiveTime with
    | some recvTime =>
      if 0 < pendingReq.Device1SendTime then
        some (recvTime - pendingReq.Device1SendTime)
      else none
    | none => none
  let device2RTT : Option ℤ :=
    match pendingReq.Device2ReceiveTime with
    | some recvTime =>
      if 0 < pendingReq.Device2SendTime then
        some (recvTime - pendingReq.Device2SendTime)
      else none
    | none => none
  let timeDifference : Option ℤ :=
    match pendingReq.Device1Response, pendingReq.Device2Response with
    | some t1, some t2 => some (t1 - t2)
    | _, _ => none
  { ID := 0
    Device1ID := pendingReq.Device1ID
    Device1Type := device1Type
    Device1Timestamp := pendingReq.Device1Response
    Device2ID := pendingReq.Device2ID
    Device2Type := device2Type
    Device2Timestamp := pendingReq.Device2Response
    ServerRequestTime := pendingReq.ServerRequestTime
    ServerResponseTime := some now
    Device1RTT := device1RTT
    Device2RTT := device2RTT
    TimeDifference := timeDifference
    Status := statusAndError.1
    ErrorMessage := statusAndError.2
    CreatedAt := now }

/-! ### SyncMeasurement (internal/models/measurement.go) -/

/-- `SyncMeasurement` from `internal/models/measurement.go`: local times
in milliseconds, RTTs (`ResponseTime` fields) in microseconds. -/
structure SyncMeasurement where
  LocalTime1 : ℤ
  ResponseTime1 : ℤ
  LocalTime2 : ℤ
  ResponseTime2 : ℤ
  TimeDifference : ℤ
deriving DecidableEq, Repr

/-- `GetAdjustedTimeDifference`: subtract the one-way delay
(`RTT/2000`, μs → ms) from each local time and round the difference of
the corrected times (Go `math.Round`). -/
def SyncMeasurement.GetAdjustedTimeDifference (m : SyncMeasurement) : ℤ :=
  let delay1 : ℚ := (m.ResponseTime1 : ℚ) / 2000
  let delay2 : ℚ := (m.ResponseTime2 : ℚ) / 2000
  let adj1 := (m.LocalTime1 : ℚ) - delay1
  let adj2 := (m.LocalTime2 : ℚ) - delay2
  mathRound (adj1 - adj2)

/-- `NewSyncMeasurementFromRecord`: requires both timestamps and both
RTTs; the `TimeDifference` field is left at the Go zero value. -/
def NewSyncMeasurementFromRecord (record : TimeSyncRecord) :
    Option SyncMeasurement :=
  match record.Device1Timestamp, record.Device2Timestamp,
      record.Device1RTT, record.Device2RTT with
  | some t1, some t2, some rtt1, some rtt2 =>
    some
      { LocalTime1 := t1
        ResponseTime1 := rtt1
        LocalTime2 := t2
        ResponseTime2 := rtt2
        TimeDifference := 0 }
  | _, _, _, _ => none

/-! ### Sync service (part_002): multi-sampling -/

/-- Error results of `RequestMultipleTimeSyncs`.  Repository failures are
outside the model (individual save failures are ignored by the code
anyway); `ntpSelection` wraps a `SelectBestMeasurements` error. -/
inductive MultiSyncError where
  | allSamplesFailed (sampleCount : ℤ)
  | ntpSelection (e : SelectorError)
deriving DecidableEq, Repr

/-- The sample-count default of `RequestMultipleTimeSyncs`: a count of 0,
or one above 20, becomes the NTP-standard 8; anything else (negative
counts included) is kept. -/
def effectiveSampleCount (sampleCount : ℤ) : ℤ :=
  if sampleCount = 0 ∨ 20 < sampleCount then 8 else sampleCount

/-- The configuration `RequestMultipleTimeSyncs` hands to
`NewNTPSelector`. -/
def defaultNTPConfig : NTPFilterConfig :=
  NewNTPSelector { MinSamples := 3, OutlierThreshold := 2, TopPercentile := 1/2 }

/-- The measurement loop of `RequestMultipleTimeSyncs`: iteration `i`
calls `hub.RequestTimeSync`, modelled by the oracle `measure`
(`none` = the call returned an error and the sample is skipped).
Successful records are collected in order. -/
def collectMeasurements (measure : ℕ → Option TimeSyncRecord)
    (sampleCount : ℤ) : List TimeSyncRecord :=
  (List.range sampleCount.toNat).filterMap measure

/-- `RequestMultipleTimeSyncs`: apply the sample-count default, collect
the per-sample measurements (failed samples are skipped), fail with
`allSamplesFailed` when none succeeded, otherwise run the NTP selector.
The `IntervalMs`/`TimeoutSec` defaults (200 / 5) and the inter-sample
sleep only affect real time and are not modelled; the aggregation id and
creation time set on success are irrelevant to the checked properties and
left at their zero values. -/
def RequestMultipleTimeSyncs (measure : ℕ → Option TimeSyncRecord)
    (req : MultiSyncRequest) : Except MultiSyncError AggregatedSyncResult :=
  let sampleCount := effectiveSampleCount req.SampleCount
  let measurements := collectMeasurements measure sampleCount
  if measurements.length = 0 then .error (.allSamplesFailed sampleCount)
  else
    match SelectBestMeasurements defaultNTPConfig measurements with
    | .error e => .error (.ntpSelection e)
    | .ok result => .ok { result with PairingID := req.PairingID }

/-! ### Sync service (part_002): list queries, with a model of the
repository's SQL (part_004) -/

/-- The limit clamping shared by every list query of the sync service:
non-positive limits become the default 50, limits above 1000 become
1000. -/
def effectiveLimit (limit : ℤ) : ℤ :=
  let limit := if limit ≤ 0 then 50 else limit
  if 1000 < limit then 1000 else limit

/-- `ORDER BY created_at DESC` on sync records. -/
def recordByCreatedAtDesc (a b : TimeSyncRecord) : Prop :=
  b.CreatedAt ≤ a.CreatedAt

instance : DecidableRel recordByCreatedAtDesc :=
  fun a b => inferInstanceAs (Decidable (b.CreatedAt ≤ a.CreatedAt))

instance : IsTotal TimeSyncRecord recordByCreatedAtDesc :=
  ⟨fun a b => le_total b.CreatedAt a.CreatedAt⟩

instance : IsTrans TimeSyncRecord recordByCreatedAtDesc :=
  ⟨fun _ _ _ h1 h2 => le_trans h2 h1⟩

/-- `ORDER BY created_at DESC` on aggregated results. -/
def aggByCreatedAtDesc (a b : AggregatedSyncResult) : Prop :=
  b.CreatedAt ≤ a.CreatedAt

instance : DecidableRel aggByCreatedAtDesc :=
  fun a b => inferInstanceAs (Decidable (b.CreatedAt ≤ a.CreatedAt))

instance : IsTotal AggregatedSyncResult aggByCreatedAtDesc :=
  ⟨fun a b => le_total b.CreatedAt a.CreatedAt⟩

instance : IsTrans AggregatedSyncResult aggByCreatedAtDesc :=
  ⟨fun _ _ _ h1 h2 => le_trans h2 h1⟩

/-- Model of the repository query `GetTimeSyncRecords` (SQLite
`ORDER BY created_at DESC LIMIT ? OFFSET ?` over the stored table, for
the non-negative limits and offsets the service passes). -/
def GetTimeSyncRecordsRepo (table : List TimeSyncRecord)
    (limit offset : ℤ) : List TimeSyncRecord :=
  (((table.insertionSort recordByCreatedAtDesc).drop offset.toNat).take
    limit.toNat)

/-- `SyncService.GetSyncRecords`: clamp the limit, then query the
repository. -/
def GetSyncRecords (table : List TimeSyncRecord) (limit offset : ℤ) :
    List TimeSyncRecord :=
  GetTimeSyncRecordsRepo table (effectiveLimit limit) offset

/-- Model of the repository query `GetAllAggregatedSyncResults` (same
SQL shape over the aggregated-results table). -/
def GetAllAggregatedSyncResultsRepo (table : List AggregatedSyncResult)
    (limit offset : ℤ) : List AggregatedSyncResult :=
  (((table.insertionSort aggByCreatedAtDesc).drop offset.toNat).take
    limit.toNat)

/-- `SyncService.GetAllAggregatedSyncResults`: clamp the limit, then
query the repository. -/
def GetAllAggregatedSyncResults (table : List AggregatedSyncResult)
    (limit offset : ℤ) : List AggregatedSyncResult :=
  GetAllAggregatedSyncResultsRepo table (effectiveLimit limit) offset

/-! ### Concrete inputs used by witnesses -/

/-- A complete record for two devices whose local times are `t1`/`t2`
(ms) and whose RTTs are `rtt1`/`rtt2` (μs); the raw time difference is
`t1 - t2`, as the hub stores it. -/
def refinementRecord (t1 rtt1 t2 rtt2 : ℤ) : TimeSyncRecord :=
  { ID := 0
    Device1ID := "psg-1"
    Device1Type := "PSG"
    Device1Timestamp := some t1
    Device2ID := "watch-1"
    Device2Type := "WATCH"
    Device2Timestamp := some t2
    ServerRequestTime := 0
    ServerResponseTime := some 0
    Device1RTT := some rtt1
    Device2RTT := some rtt2
    TimeDifference := some (t1 - t2)
    Status := .success
    ErrorMessage := none
    CreatedAt := 0 }

/-! ### C1 — per-sample network-delay compensation -/

/-- C1: for every sync record carrying both RTTs `rtt1`, `rtt2` (μs) and
a raw offset `rawOffset` (ms), the compensated offset the selector
computes for it equals `round(rawOffset - (rtt1 - rtt2)/2000)`,
with Go rounding (halves away from zero). -/
theorem analyzeRecord_offset_eq (record : TimeSyncRecord)
    (rtt1 rtt2 rawOffset : ℤ)
    (h1 : record.Device1RTT = some rtt1)
    (h2 : record.Device2RTT = some rtt2)
    (h3 : record.TimeDifference = some rawOffset) :
    ∃ a, analyzeRecord record = some a ∧
      a.Offset = mathRound ((rawOffset : ℚ) - ((rtt1 : ℚ) - (rtt2 : ℚ)) / 2000) := by
  have ha : analyzeRecord record = some
      { Record := record
        TotalRTT := rtt1 + rtt2
        RTTDifference := absInt (rtt1 - rtt2)
        Offset := mathRound ((rawOffset : ℚ) - ((rtt1 : ℚ) / 2000 - (rtt2 : ℚ) / 2000))
        IsOutlier := false
        SelectionScore := 0 } := by
    unfold analyzeRecord
    rw [h1, h2, h3]
  exact ⟨_, ha, congrArg mathRound (by ring)⟩

/-- C1 witness: the concrete record with raw offset −150 ms and RTTs
5000 μs / 50000 μs gets compensated offset −128 ms. -/
theorem analyzeRecord_offset_eq_witness :
    ∃ a, analyzeRecord (refinementRecord (-150) 5000 0 50000) = some a ∧
      a.Offset = -128 := by
  obtain ⟨a, ha, hoff⟩ :=
    analyzeRecord_offset_eq (refinementRecord (-150) 5000 0 50000)
      5000 50000 (-150) rfl rfl (by decide)
  refine ⟨a, ha, ?_⟩
  rw [hoff]
  norm_num [mathRound]

/-! ### C2 — completion status and raw time difference -/

/-- C2: for every completed pending request, the record status is
`SUCCESS` exactly when both device responses are present, `PARTIAL`
exactly when exactly one is, `FAILED` exactly when neither is (so the
three cases are exhaustive and mutually exclusive), and the raw
`TimeDifference` is `device1Timestamp - device2Timestamp`, set exactly
when both responses are present. -/
theorem completeSyncRequest_status_and_difference (pendingReq : PendingRequest)
    (d1Type d2Type : DeviceType) (now : ℤ) :
    ((completeSyncRequest pendingReq d1Type d2Type now).Status = .success ↔
      pendingReq.Device1Response.isSome ∧ pendingReq.Device2Response.isSome) ∧
    ((completeSyncRequest pendingReq d1Type d2Type now).Status = .partialSync ↔
      ((pendingReq.Device1Response.isSome ∧ pendingReq.Device2Response = none) ∨
       (pendingReq.Device1Response = none ∧ pendingReq.Device2Response.isSome))) ∧
    ((completeSyncRequest pendingReq d1Type d2Type now).Status = .failed ↔
      pendingReq.Device1Response = none ∧ pendingReq.Device2Response = none) ∧
    (∀ t1 t2, pendingReq.Device1Response = some t1 →
      pendingReq.Device2Response = some t2 →
      (completeSyncRequest pendingReq d1Type d2Type now).TimeDifference =
        some (t1 - t2)) ∧
    (¬(pendingReq.Device1Response.isSome ∧ pendingReq.Device2Response.isSome) →
      (completeSyncRequest pendingReq d1Type d2Type now).TimeDifference = none) := by
  obtain ⟨rid, pid, dev1, dev2, r1, r2, srt, s1, s2, rt1, rt2⟩ := pendingReq
  cases r1 <;> cases r2 <;>
    simp [completeSyncRequest]

/-- C2 witness: a request where only device 2 responded is `PARTIAL` and
has no time difference. -/
theorem completeSyncRequest_status_and_difference_witness :
    (completeSyncRequest
      { RequestID := "r1", PairingID := "p1", Device1ID := "a", Device2ID := "b"
        Device1Response := none, Device2Response := some 42
        ServerRequestTime := 0, Device1SendTime := 0, Device2SendTime := 0
        Device1ReceiveTime := none, Device2ReceiveTime := some 900 }
      "PSG" "WATCH" 7).Status = .partialSync ∧
    (completeSyncRequest
      { RequestID := "r1", PairingID := "p1", Device1ID := "a", Device2ID := "b"
        Device1Response := none, Device2Response := some 42
        ServerRequestTime := 0, Device1SendTime := 0, Device2SendTime := 0
        Device1ReceiveTime := none, Device2ReceiveTime := some 900 }
      "PSG" "WATCH" 7).TimeDifference = none := by
  obtain ⟨hs, hp, hf, ht, hn⟩ :=
    completeSyncRequest_status_and_difference
      { RequestID := "r1", PairingID := "p1", Device1ID := "a", Device2ID := "b"
        Device1Response := none, Device2Response := some 42
        ServerRequestTime := 0, Device1SendTime := 0, Device2SendTime := 0
        Device1ReceiveTime := none, Device2ReceiveTime := some 900 }
      "PSG" "WATCH" 7
  exact ⟨hp.mpr (Or.inr ⟨rfl, rfl⟩), hn (by simp)⟩

/-! ### C9 — the measurement helper refines the selector compensation -/

/-- C9: on a record with local times `t1`, `t2` and RTTs `rtt1`, `rtt2`,
`SyncMeasurement.GetAdjustedTimeDifference` (via
`NewSyncMeasurementFromRecord`) and the selector's per-sample
compensation agree: both equal
`round((t1 - t2) - (rtt1 - rtt2)/2000)`. -/
theorem getAdjustedTimeDifference_refines_selector (t1 rtt1 t2 rtt2 : ℤ) :
    ∃ m a,
      NewSyncMeasurementFromRecord (refinementRecord t1 rtt1 t2 rtt2) = some m ∧
      analyzeRecord (refinementRecord t1 rtt1 t2 rtt2) = some a ∧
      m.GetAdjustedTimeDifference = a.Offset ∧
      a.Offset =
        mathRound (((t1 : ℚ) - (t2 : ℚ)) - ((rtt1 : ℚ) - (rtt2 : ℚ)) / 2000) := by
  refine ⟨_, _, rfl, rfl, ?_, ?_⟩
  · show mathRound _ = mathRound _
    exact congrArg mathRound (by push_cast; ring)
  · show mathRound _ = mathRound _
    exact congrArg mathRound (by push_cast; ring)

/-! ### C7 — a burst fails with AllSamplesFailed exactly when no sample
succeeded -/

/-- C7: `RequestMultipleTimeSyncs` returns the all-samples-failed error
exactly when every individual measurement of the burst failed; failed
samples are skipped (the collected list keeps only the successes), and
whenever at least one sample succeeded the burst proceeds to the NTP
selection on the collected measurements. -/
theorem requestMultipleTimeSyncs_allSamplesFailed_iff
    (measure : ℕ → Option TimeSyncRecord) (req : MultiSyncRequest) :
    (RequestMultipleTimeSyncs measure req =
        .error (.allSamplesFailed (effectiveSampleCount req.SampleCount)) ↔
      ∀ i < (effectiveSampleCount req.SampleCount).toNat, measure i = none) ∧
    (collectMeasurements measure (effectiveSampleCount req.SampleCount) ≠ [] →
      (∃ e, SelectBestMeasurements defaultNTPConfig
            (collectMeasurements measure (effectiveSampleCount req.SampleCount)) =
            .error e ∧
          RequestMultipleTimeSyncs measure req = .error (.ntpSelection e)) ∨
      (∃ r, SelectBestMeasurements defaultNTPConfig
            (collectMeasurements measure (effectiveSampleCount req.SampleCount)) =
            .ok r ∧
          RequestMultipleTimeSyncs measure req =
            .ok { r with PairingID := req.PairingID })) := by
  have hnil :
      collectMeasurements measure (effectiveSampleCount req.SampleCount) = [] ↔
      ∀ i < (effectiveSampleCount req.SampleCount).toNat, measure i = none := by
    simp [collectMeasurements, List.filterMap_eq_nil_iff]
  constructor
  · rw [← hnil]
    by_cases h :
        collectMeasurements measure (effectiveSampleCount req.SampleCount) = []
    · simp [RequestMultipleTimeSyncs, h]
    · rcases hsel : SelectBestMeasurements defaultNTPConfig
          (collectMeasurements measure (effectiveSampleCount req.SampleCount))
        with e | r <;>
      simp [RequestMultipleTimeSyncs, List.length_eq_zero, h, hsel]
  · intro hne
    rcases hsel : SelectBestMeasurements defaultNTPConfig
        (collectMeasurements measure (effectiveSampleCount req.SampleCount))
      with e | r
    · exact Or.inl ⟨e, rfl,
        by simp [RequestMultipleTimeSyncs, List.length_eq_zero, hne, hsel]⟩
    · exact Or.inr ⟨r, rfl,
        by simp [RequestMultipleTimeSyncs, List.length_eq_zero, hne, hsel]⟩

/-- C7 witness: a 2-sample burst where the hub fails every sample ends in
the all-samples-failed error. -/
theorem requestMultipleTimeSyncs_allSamplesFailed_iff_witness :
    RequestMultipleTimeSyncs (fun _ => none)
      { PairingID := "p", SampleCount := 2, IntervalMs := 0, TimeoutSec := 0 } =
      .error (.allSamplesFailed 2) := by
  obtain ⟨hiff, _⟩ :=
    requestMultipleTimeSyncs_allSamplesFailed_iff (fun _ => none)
      { PairingID := "p", SampleCount := 2, IntervalMs := 0, TimeoutSec := 0 }
  exact hiff.mpr fun i _ => rfl

/-! ### C10 — sample-count defaulting and negative counts -/

/-- C10: the sample count is replaced by the default 8 only when it is 0
or above 20; a negative sample count is kept, the sampling loop runs zero
iterations (no measurement is attempted), and the burst fails with the
all-samples-failed error. -/
theorem requestMultipleTimeSyncs_sampleCount_default
    (measure : ℕ → Option TimeSyncRecord) (req : MultiSyncRequest) :
    ((req.SampleCount = 0 ∨ 20 < req.SampleCount) →
      effectiveSampleCount req.SampleCount = 8) ∧
    (req.SampleCount ≠ 0 → req.SampleCount ≤ 20 →
      effectiveSampleCount req.SampleCount = req.SampleCount) ∧
    (req.SampleCount < 0 →
      collectMeasurements measure (effectiveSampleCount req.SampleCount) = [] ∧
      RequestMultipleTimeSyncs measure req =
        .error (.allSamplesFailed req.SampleCount)) := by
  refine ⟨fun h => by rw [effectiveSampleCount, if_pos h],
    fun h1 h2 => by rw [effectiveSampleCount, if_neg (by omega)], fun h => ?_⟩
  have he : effectiveSampleCount req.SampleCount = req.SampleCount := by
    rw [effectiveSampleCount, if_neg (by omega)]
  have hcoll :
      collectMeasurements measure (effectiveSampleCount req.SampleCount) = [] := by
    simp [collectMeasurements, he, Int.toNat_of_nonpos (le_of_lt h)]
  refine ⟨hcoll, ?_⟩
  rw [show (MultiSyncError.allSamplesFailed req.SampleCount) =
      .allSamplesFailed (effectiveSampleCount req.SampleCount) by rw [he]]
  simp [RequestMultipleTimeSyncs, hcoll]

/-- C10 witness: a burst with sample count −3 attempts nothing and fails
with the all-samples-failed error, even though every hub call would have
succeeded. -/
theorem requestMultipleTimeSyncs_sampleCount_default_witness :
    effectiveSampleCount (-3) = -3 ∧
    RequestMultipleTimeSyncs (fun _ => some (refinementRecord 0 1000 0 1000))
      { PairingID := "p", SampleCount := -3, IntervalMs := 0, TimeoutSec := 0 } =
      .error (.allSamplesFailed (-3)) := by
  obtain ⟨_, hkeep, hneg⟩ :=
    requestMultipleTimeSyncs_sampleCount_default
      (fun _ => some (refinementRecord 0 1000 0 1000))
      { PairingID := "p", SampleCount := -3, IntervalMs := 0, TimeoutSec := 0 }
  exact ⟨hkeep (by decide) (by decide), (hneg (by decide)).2⟩

/-! ### C8 — list-query limit clamping and ordering -/

/-- C8: for the sync-record and aggregated-result list queries, the
effective limit always lies in `[1, 1000]`: a limit above 1000 is reduced
to 1000, a non-positive limit becomes the default 50, and an in-range
limit is kept; the returned lists are ordered by `createdAt`
descending. -/
theorem listQueries_limit_clamped_and_sorted (limit : ℤ) :
    (1 ≤ effectiveLimit limit ∧ effectiveLimit limit ≤ 1000) ∧
    (1000 < limit → effectiveLimit limit = 1000) ∧
    (limit ≤ 0 → effectiveLimit limit = 50) ∧
    (1 ≤ limit → limit ≤ 1000 → effectiveLimit limit = limit) ∧
    (∀ (table : List TimeSyncRecord) (offset : ℤ),
      List.Pairwise recordByCreatedAtDesc (GetSyncRecords table limit offset)) ∧
    (∀ (table : List AggregatedSyncResult) (offset : ℤ),
      List.Pairwise aggByCreatedAtDesc
        (GetAllAggregatedSyncResults table limit offset)) := by
  refine ⟨?_, ?_, ?_, ?_, ?_, ?_⟩
  · simp only [effectiveLimit]; split_ifs <;> omega
  · intro h; simp only [effectiveLimit]; split_ifs <;> omega
  · intro h; simp only [effectiveLimit]; split_ifs <;> omega
  · intro h1 h2; simp only [effectiveLimit]; split_ifs <;> omega
  · intro table offset
    exact List.Pairwise.sublist
      ((List.take_sublist _ _).trans (List.drop_sublist _ _))
      (List.sorted_insertionSort recordByCreatedAtDesc table)
  · intro table offset
    exact List.Pairwise.sublist
      ((List.take_sublist _ _).trans (List.drop_sublist _ _))
      (List.sorted_insertionSort aggByCreatedAtDesc table)

/-- C8 witness: limit 5000 is reduced to 1000, limit −7 becomes the
default 50, limit 120 is kept. -/
theorem listQueries_limit_clamped_and_sorted_witness :
    effectiveLimit 5000 = 1000 ∧ effectiveLimit (-7) = 50 ∧
    effectiveLimit 120 = 120 := by
  refine ⟨(listQueries_limit_clamped_and_sorted 5000).2.1 (by decide),
    (listQueries_limit_clamped_and_sorted (-7)).2.2.1 (by decide),
    (listQueries_limit_clamped_and_sorted 120).2.2.2.1 (by decide) (by decide)⟩

/-! ### Shared lemmas about the selector pipeline -/

/-- The offset variance is a mean of squares, hence non-negative. -/
theorem calculateOffsetStats_snd_nonneg (analyses : List SampleAnalysis) :
    0 ≤ (calculateOffsetStats analyses).2 := by
  unfold calculateOffsetStats
  split_ifs with h
  · exact le_refl 0
  · refine div_nonneg (List.sum_nonneg ?_) (by positivity)
    intro x hx
    obtain ⟨a, _, rfl⟩ := List.mem_map.mp hx
    positivity

/-- `absLeMulSqrt` decides the real-valued comparison
`|x| ≤ t * Real.sqrt v` that the Go code performs through `math.Sqrt`. -/
theorem absLeMulSqrt_iff (x t v : ℚ) (hv : 0 ≤ v) :
    absLeMulSqrt x t v = true ↔
      |(x : ℝ)| ≤ (t : ℝ) * Real.sqrt (v : ℝ) := by
  have hvr : (0 : ℝ) ≤ (v : ℝ) := by exact_mod_cast hv
  unfold absLeMulSqrt
  split_ifs with ht
  · have htr : (0 : ℝ) ≤ (t : ℝ) := by exact_mod_cast ht
    simp only [decide_eq_true_eq]
    constructor
    · intro h
      have hrhs : (0 : ℝ) ≤ (t : ℝ) * Real.sqrt (v : ℝ) :=
        mul_nonneg htr (Real.sqrt_nonneg _)
      have hsq : |(x : ℝ)| ^ 2 ≤ ((t : ℝ) * Real.sqrt (v : ℝ)) ^ 2 := by
        rw [mul_pow, Real.sq_sqrt hvr, sq_abs]
        exact_mod_cast h
      nlinarith [abs_nonneg (x : ℝ)]
    · intro h
      have hsq : |(x : ℝ)| ^ 2 ≤ ((t : ℝ) * Real.sqrt (v : ℝ)) ^ 2 :=
        pow_le_pow_left₀ (abs_nonneg _) h 2
      rw [mul_pow, Real.sq_sqrt hvr, sq_abs] at hsq
      exact_mod_cast hsq
  · push_neg at ht
    have htr : ((t : ℝ)) < 0 := by exact_mod_cast ht
    simp only [decide_eq_true_eq]
    constructor
    · rintro ⟨hx, hv0⟩
      rw [show (x : ℝ) = 0 by exact_mod_cast hx,
        show (v : ℝ) = 0 by exact_mod_cast hv0]
      simp
    · intro h
      have hts : (t : ℝ) * Real.sqrt (v : ℝ) ≤ 0 :=
        mul_nonpos_of_nonpos_of_nonneg (le_of_lt htr) (Real.sqrt_nonneg _)
      have habs : |(x : ℝ)| = 0 := le_antisymm (h.trans hts) (abs_nonneg _)
      have hze : (t : ℝ) * Real.sqrt (v : ℝ) = 0 :=
        le_antisymm hts (habs ▸ h)
      have hsq : Real.sqrt (v : ℝ) = 0 :=
        (mul_eq_zero.mp hze).resolve_left (ne_of_lt htr)
      have hv0 : (v : ℝ) = 0 := by
        have := Real.sqrt_eq_zero hvr
        exact (this.mp hsq)
      constructor
      · exact_mod_cast abs_eq_zero.mp habs
      · exact_mod_cast hv0

/-- Replacing an already-false outlier flag by `false` is the identity
(structure eta). -/
theorem setFlag_eq_self (a : SampleAnalysis) (h : a.IsOutlier = false) :
    ({ a with IsOutlier := false } : SampleAnalysis) = a := by
  rw [← h]

/-- Marking flags with `!p` and keeping the unmarked elements is the same
as filtering by `p`, provided the incoming flags are all cleared. -/
theorem mark_filter_eq (analyses : List SampleAnalysis)
    (p : SampleAnalysis → Bool)
    (hflags : ∀ a ∈ analyses, a.IsOutlier = false) :
    (analyses.map fun a => { a with IsOutlier := !p a }).filter
        (fun a => !a.IsOutlier) =
      analyses.filter fun a => p a := by
  induction analyses with
  | nil => simp
  | cons a l ih =>
    have ha := hflags a (List.mem_cons_self a l)
    have hl : ∀ b ∈ l, b.IsOutlier = false :=
      fun b hb => hflags b (List.mem_cons_of_mem a hb)
    simp only [List.map_cons, List.filter_cons]
    cases hp : p a
    · simpa [hp] using ih hl
    · simp [hp, ih hl, setFlag_eq_self a ha]

/-- Clearing already-clear flags is the identity. -/
theorem clearFlags_eq (analyses : List SampleAnalysis)
    (hflags : ∀ a ∈ analyses, a.IsOutlier = false) :
    (analyses.map fun a => { a with IsOutlier := false }) = analyses := by
  induction analyses with
  | nil => rfl
  | cons a l ih =>
    have ha := hflags a (List.mem_cons_self a l)
    have hl : ∀ b ∈ l, b.IsOutlier = false :=
      fun b hb => hflags b (List.mem_cons_of_mem a hb)
    simp [ih hl, setFlag_eq_self a ha]

/-! ### C4 — the RTT filter keeps the top percentile -/

/-- C4: on a non-empty analysis set of size `n`, `FilterByRTT` returns a
prefix of the list sorted by total RTT ascending, of length exactly
`⌈n · TopPercentile⌉` — except that when that cutoff is below
`MinSamples`, the length is `min MinSamples n` instead (`TopPercentile`
is in `(0, 1]` per the configuration contract). -/
theorem FilterByRTT_top_percentile (cfg : NTPFilterConfig)
    (records : List TimeSyncRecord)
    (hne : records.filterMap analyzeRecord ≠ [])
    (hp : cfg.TopPercentile ≤ 1) :
    FilterByRTT cfg records =
      ((records.filterMap analyzeRecord).insertionSort byTotalRTT).take
        (if ⌈((records.filterMap analyzeRecord).length : ℚ) *
              cfg.TopPercentile⌉ < cfg.MinSamples then
          min cfg.MinSamples ((records.filterMap analyzeRecord).length : ℤ)
        else
          ⌈((records.filterMap analyzeRecord).length : ℚ) *
            cfg.TopPercentile⌉).toNat ∧
    (FilterByRTT cfg records).length =
      (if ⌈((records.filterMap analyzeRecord).length : ℚ) *
            cfg.TopPercentile⌉ < cfg.MinSamples then
        min cfg.MinSamples ((records.filterMap analyzeRecord).length : ℤ)
      else
        ⌈((records.filterMap analyzeRecord).length : ℚ) *
          cfg.TopPercentile⌉).toNat ∧
    List.Pairwise byTotalRTT (FilterByRTT cfg records) := by
  have hlen0 : ¬(records.filterMap analyzeRecord).length = 0 := by
    simpa [List.length_eq_zero] using hne
  have heq : FilterByRTT cfg records =
      ((records.filterMap analyzeRecord).insertionSort byTotalRTT).take
        (if ⌈((records.filterMap analyzeRecord).length : ℚ) *
              cfg.TopPercentile⌉ < cfg.MinSamples then
          min cfg.MinSamples ((records.filterMap analyzeRecord).length : ℤ)
        else
          ⌈((records.filterMap analyzeRecord).length : ℚ) *
            cfg.TopPercentile⌉).toNat := by
    simp only [FilterByRTT]
    rw [if_neg hlen0]
  have hkle :
      (if ⌈((records.filterMap analyzeRecord).length : ℚ) *
            cfg.TopPercentile⌉ < cfg.MinSamples then
        min cfg.MinSamples ((records.filterMap analyzeRecord).length : ℤ)
      else
        ⌈((records.filterMap analyzeRecord).length : ℚ) *
          cfg.TopPercentile⌉).toNat ≤
      (records.filterMap analyzeRecord).length := by
    split_ifs with hcut
    · exact Int.toNat_le.mpr (min_le_right _ _)
    · refine Int.toNat_le.mpr ?_
      have hle : ((records.filterMap analyzeRecord).length : ℚ) *
          cfg.TopPercentile ≤ ((records.filterMap analyzeRecord).length : ℚ) :=
        mul_le_of_le_one_right (by positivity) hp
      calc ⌈((records.filterMap analyzeRecord).length : ℚ) *
          cfg.TopPercentile⌉ ≤
            ⌈((records.filterMap analyzeRecord).length : ℚ)⌉ :=
          Int.ceil_le_ceil hle
        _ = ((records.filterMap analyzeRecord).length : ℤ) := by
          exact_mod_cast Int.ceil_natCast (records.filterMap analyzeRecord).length
  refine ⟨heq, ?_, ?_⟩
  · rw [heq, List.length_take, List.length_insertionSort]
    exact min_eq_left hkle
  · rw [heq]
    exact List.Pairwise.sublist (List.take_sublist _ _)
      (List.sorted_insertionSort byTotalRTT _)

/-- C4 witness: with the default configuration and one complete record
present, the hypotheses of the RTT-filter characterization hold and its
conclusion follows. -/
theorem FilterByRTT_top_percentile_witness :
    ([refinementRecord 0 1000 0 1000].filterMap analyzeRecord ≠ [] ∧
      ((⟨3, 2, 1/2⟩ : NTPFilterConfig)).TopPercentile ≤ 1) ∧
    List.Pairwise byTotalRTT
      (FilterByRTT ⟨3, 2, 1/2⟩ [refinementRecord 0 1000 0 1000]) := by
  have h1 : [refinementRecord 0 1000 0 1000].filterMap analyzeRecord ≠ [] := by
    decide
  have h2 : ((⟨3, 2, 1/2⟩ : NTPFilterConfig)).TopPercentile ≤ 1 := by
    norm_num [NTPFilterConfig.TopPercentile]
  exact ⟨⟨h1, h2⟩,
    (FilterByRTT_top_percentile _ [refinementRecord 0 1000 0 1000] h1 h2).2.2⟩

/-! ### C5 — standard-deviation outlier removal -/

/-- The acceptance test of `RemoveOutliers` for one sample, written over
the incoming analysis set: `|offset − mean| ≤ OutlierThreshold · stdDev`
in its exact squared form. -/
def outlierKeepTest (cfg : NTPFilterConfig) (analyses : List SampleAnalysis)
    (a : SampleAnalysis) : Bool :=
  absLeMulSqrt ((a.Offset : ℚ) - (calculateOffsetStats analyses).1)
    cfg.OutlierThreshold (calculateOffsetStats analyses).2

/-- C5: with μ, σ the mean and standard deviation of the offsets of the
incoming set (whose outlier flags are all clear, as `FilterByRTT` leaves
them), a sample passes the outlier test exactly when
`|offset − μ| ≤ OutlierThreshold · σ`; if the samples passing the test
number fewer than `MinSamples` the step keeps every sample with every
flag clear, and otherwise exactly the passing samples survive, with
exactly the failing ones flagged as outliers. -/
theorem RemoveOutliers_spec (cfg : NTPFilterConfig)
    (analyses : List SampleAnalysis)
    (hflags : ∀ a ∈ analyses, a.IsOutlier = false) :
    (∀ a ∈ analyses,
      (outlierKeepTest cfg analyses a = true ↔
        |(((a.Offset : ℚ) - (calculateOffsetStats analyses).1 : ℚ) : ℝ)| ≤
          (cfg.OutlierThreshold : ℝ) *
            Real.sqrt ((calculateOffsetStats analyses).2 : ℝ))) ∧
    ((analyses.filter (fun a => outlierKeepTest cfg analyses a)).length < cfg.MinSamples →
      RemoveOutliers cfg analyses = (analyses, analyses)) ∧
    (cfg.MinSamples ≤ (analyses.filter (fun a => outlierKeepTest cfg analyses a)).length →
      RemoveOutliers cfg analyses =
        (analyses.map fun a =>
          { a with IsOutlier := !outlierKeepTest cfg analyses a },
         analyses.filter (fun a => outlierKeepTest cfg analyses a))) := by
  have hv := calculateOffsetStats_snd_nonneg analyses
  have hmf := mark_filter_eq analyses (outlierKeepTest cfg analyses) hflags
  refine ⟨fun a _ => absLeMulSqrt_iff _ _ _ hv, ?_, ?_⟩
  · intro hlt
    by_cases hn : (analyses.length : ℤ) < cfg.MinSamples
    · simp only [RemoveOutliers]
      rw [if_pos hn]
    · simp only [RemoveOutliers]
      rw [if_neg hn]
      simp only [outlierKeepTest] at hmf hlt
      rw [hmf, if_pos hlt, clearFlags_eq analyses hflags]
  · intro hge
    have hn : ¬((analyses.length : ℤ) < cfg.MinSamples) := by
      have hfle := List.length_filter_le (fun a => outlierKeepTest cfg analyses a) analyses
      omega
    simp only [RemoveOutliers]
    rw [if_neg hn]
    simp only [outlierKeepTest] at hmf hge ⊢
    rw [hmf, if_neg (not_lt.mpr hge)]

/-- The single clean sample used by the outlier-step witness. -/
def witnessSample : SampleAnalysis :=
  { Record := refinementRecord 0 1000 0 1000
    TotalRTT := 2000
    RTTDifference := 0
    Offset := 10
    IsOutlier := false
    SelectionScore := 0 }

/-- C5 witness: on a single clean sample with the default configuration,
the acceptance test agrees with the real-valued
`|offset − μ| ≤ threshold·σ` comparison. -/
theorem RemoveOutliers_spec_witness :
    (∀ a ∈ [witnessSample], a.IsOutlier = false) ∧
    (outlierKeepTest ⟨3, 2, 1/2⟩ [witnessSample] witnessSample = true ↔
      |(((witnessSample.Offset : ℚ) -
          (calculateOffsetStats [witnessSample]).1 : ℚ) : ℝ)| ≤
        (((⟨3, 2, 1/2⟩ : NTPFilterConfig)).OutlierThreshold : ℝ) *
          Real.sqrt ((calculateOffsetStats [witnessSample]).2 : ℝ)) := by
  have hflags : ∀ a ∈ [witnessSample], a.IsOutlier = false := by decide
  exact ⟨hflags,
    (RemoveOutliers_spec ⟨3, 2, 1/2⟩ _ hflags).1 _ (List.mem_singleton_self _)⟩

/-! ### Length bookkeeping for the pipeline -/

/-- `FilterByRTT` never returns more analyses than it was given
records. -/
theorem FilterByRTT_length_le (cfg : NTPFilterConfig)
    (records : List TimeSyncRecord) :
    (FilterByRTT cfg records).length ≤ records.length := by
  simp only [FilterByRTT]
  split_ifs with h h2
  · exact List.length_filterMap_le _ _
  all_goals
    rw [List.length_take, List.length_insertionSort]
    exact le_trans (min_le_right _ _) (List.length_filterMap_le _ _)

/-- The symmetry step only re-scores and re-sorts. -/
theorem FilterByRTTSymmetry_length (analyses : List SampleAnalysis) :
    (FilterByRTTSymmetry analyses).length = analyses.length := by
  simp [FilterByRTTSymmetry, List.length_insertionSort]

/-- The first component of `RemoveOutliers` (the full marked set) has
the input length. -/
theorem RemoveOutliers_fst_length (cfg : NTPFilterConfig)
    (analyses : List SampleAnalysis) :
    (RemoveOutliers cfg analyses).1.length = analyses.length := by
  simp only [RemoveOutliers]
  split_ifs <;> simp

/-- The second component of `RemoveOutliers` (the surviving set) never
grows. -/
theorem RemoveOutliers_snd_length_le (cfg : NTPFilterConfig)
    (analyses : List SampleAnalysis) :
    (RemoveOutliers cfg analyses).2.length ≤ analyses.length := by
  simp only [RemoveOutliers]
  split_ifs with h1 h2
  · exact le_refl _
  · simp
  · calc (List.filter _ (List.map _ analyses)).length ≤
        (List.map _ analyses).length := List.length_filter_le _ _
      _ = analyses.length := List.length_map _ _

/-! ### Fold and sum bounds for the RTT statistics -/

/-- The running minimum never exceeds its starting accumulator. -/
theorem foldlMin_le_acc :
    ∀ (l : List SampleAnalysis) (acc : ℤ),
      l.foldl (fun m a => min m a.TotalRTT) acc ≤ acc := by
  intro l
  induction l with
  | nil => intro acc; exact le_refl _
  | cons a t ih =>
    intro acc
    exact (ih (min acc a.TotalRTT)).trans (min_le_left _ _)

/-- The running minimum is a lower bound of every visited total RTT. -/
theorem foldlMin_le_mem :
    ∀ (l : List SampleAnalysis) (acc : ℤ) (x : SampleAnalysis), x ∈ l →
      l.foldl (fun m a => min m a.TotalRTT) acc ≤ x.TotalRTT := by
  intro l
  induction l with
  | nil => intro acc x hx; cases hx
  | cons a t ih =>
    intro acc x hx
    rcases List.mem_cons.mp hx with rfl | hx
    · exact (foldlMin_le_acc t (min acc x.TotalRTT)).trans (min_le_right _ _)
    · exact ih (min acc a.TotalRTT) x hx

/-- The running maximum is at least its starting accumulator. -/
theorem acc_le_foldlMax :
    ∀ (l : List SampleAnalysis) (acc : ℤ),
      acc ≤ l.foldl (fun m a => max m a.TotalRTT) acc := by
  intro l
  induction l with
  | nil => intro acc; exact le_refl _
  | cons a t ih =>
    intro acc
    exact (le_max_left acc a.TotalRTT).trans (ih (max acc a.TotalRTT))

/-- The running maximum is an upper bound of every visited total RTT. -/
theorem mem_le_foldlMax :
    ∀ (l : List SampleAnalysis) (acc : ℤ) (x : SampleAnalysis), x ∈ l →
      x.TotalRTT ≤ l.foldl (fun m a => max m a.TotalRTT) acc := by
  intro l
  induction l with
  | nil => intro acc x hx; cases hx
  | cons a t ih =>
    intro acc x hx
    rcases List.mem_cons.mp hx with rfl | hx
    · exact (le_max_right acc x.TotalRTT).trans
        (acc_le_foldlMax t (max acc x.TotalRTT))
    · exact ih (max acc a.TotalRTT) x hx

/-- A uniform lower bound on a list of rationals bounds the sum from
below by `length · bound`. -/
theorem length_mul_le_sum (l : List ℚ) (c : ℚ) (h : ∀ x ∈ l, c ≤ x) :
    (l.length : ℚ) * c ≤ l.sum := by
  induction l with
  | nil => simp
  | cons a t ih =>
    have ha := h a (List.mem_cons_self a t)
    have ht : ∀ x ∈ t, c ≤ x := fun x hx => h x (List.mem_cons_of_mem a hx)
    have := ih ht
    simp only [List.length_cons, List.sum_cons]
    push_cast
    nlinarith

/-- A uniform upper bound on a list of rationals bounds the sum from
above by `length · bound`. -/
theorem sum_le_length_mul (l : List ℚ) (c : ℚ) (h : ∀ x ∈ l, x ≤ c) :
    l.sum ≤ (l.length : ℚ) * c := by
  induction l with
  | nil => simp
  | cons a t ih =>
    have ha := h a (List.mem_cons_self a t)
    have ht : ∀ x ∈ t, x ≤ c := fun x hx => h x (List.mem_cons_of_mem a hx)
    have := ih ht
    simp only [List.length_cons, List.sum_cons]
    push_cast
    nlinarith

/-- The mean total RTT lies between the minimum and maximum total RTT. -/
theorem calculateRTTStats_min_le_mean_le_max (analyses : List SampleAnalysis) :
    ((calculateRTTStats analyses).1 : ℚ) ≤ (calculateRTTStats analyses).2.2.1 ∧
    (calculateRTTStats analyses).2.2.1 ≤ ((calculateRTTStats analyses).2.1 : ℚ) := by
  match analyses with
  | [] => exact ⟨le_refl 0, le_refl 0⟩
  | a0 :: rest =>
    set l : List SampleAnalysis := a0 :: rest with hl
    have hn : (0 : ℚ) < (l.length : ℚ) := by
      simp [hl]
      positivity
    set minR := l.foldl (fun m a => min m a.TotalRTT) a0.TotalRTT with hmin
    set maxR := l.foldl (fun m a => max m a.TotalRTT) a0.TotalRTT with hmax
    have hlow : ∀ x ∈ l.map (fun a => (a.TotalRTT : ℚ)), (minR : ℚ) ≤ x := by
      intro x hx
      obtain ⟨a, ha, rfl⟩ := List.mem_map.mp hx
      exact_mod_cast foldlMin_le_mem l a0.TotalRTT a ha
    have hhigh : ∀ x ∈ l.map (fun a => (a.TotalRTT : ℚ)), x ≤ (maxR : ℚ) := by
      intro x hx
      obtain ⟨a, ha, rfl⟩ := List.mem_map.mp hx
      exact_mod_cast mem_le_foldlMax l a0.TotalRTT a ha
    have hsum_low := length_mul_le_sum _ (minR : ℚ) hlow
    have hsum_high := sum_le_length_mul _ (maxR : ℚ) hhigh
    rw [List.length_map] at hsum_low hsum_high
    constructor
    · show (minR : ℚ) ≤ (l.map (fun a => (a.TotalRTT : ℚ))).sum / (l.length : ℚ)
      rw [le_div_iff₀ hn, mul_comm]
      exact hsum_low
    · show (l.map (fun a => (a.TotalRTT : ℚ))).sum / (l.length : ℚ) ≤ (maxR : ℚ)
      rw [div_le_iff₀ hn, mul_comm]
      exact hsum_high

/-- The confidence score is clamped to `[0, 1]`. -/
theorem calculateConfidence_mem_unit (n : ℕ) (offsetStdDev jitter : ℝ) :
    0 ≤ calculateConfidence n offsetStdDev jitter ∧
    calculateConfidence n offsetStdDev jitter ≤ 1 := by
  unfold calculateConfidence
  split_ifs
  · exact ⟨le_refl 0, by norm_num⟩
  · exact ⟨le_max_left 0 _, max_le (by norm_num) (min_le_left _ _)⟩

/-! ### C6 — invariants of every aggregated result -/

/-- C6: every result `SelectBestMeasurements` produces satisfies
`totalSamples ≥ validSamples ≥ 0`, `outlierCount ≥ 0`,
`minRTT ≤ meanRTT ≤ maxRTT`, and a confidence in `[0, 1]`. -/
theorem SelectBestMeasurements_invariants (cfg : NTPFilterConfig)
    (records : List TimeSyncRecord) (result : AggregatedSyncResult)
    (h : SelectBestMeasurements cfg records = .ok result) :
    result.ValidSamples ≤ result.TotalSamples ∧
    (0 : ℤ) ≤ (result.ValidSamples : ℤ) ∧
    0 ≤ result.OutlierCount ∧
    (result.MinRTT : ℚ) ≤ result.MeanRTT ∧
    result.MeanRTT ≤ (result.MaxRTT : ℚ) ∧
    0 ≤ result.Confidence ∧ result.Confidence ≤ 1 := by
  simp only [SelectBestMeasurements] at h
  split_ifs at h with h0 h1
  rw [Except.ok.injEq] at h
  subst h
  simp only [calculateStatistics, AggregatedSyncResult.Confidence,
    AggregatedSyncResult.OffsetStdDev, AggregatedSyncResult.Jitter]
  refine ⟨?_, ?_, ?_, ?_, ?_, ?_, ?_⟩
  · exact le_trans (RemoveOutliers_snd_length_le _ _)
      (le_trans (le_of_eq (FilterByRTTSymmetry_length _))
        (FilterByRTT_length_le _ _))
  · exact Int.natCast_nonneg _
  · refine sub_nonneg.mpr ?_
    have hle := RemoveOutliers_snd_length_le cfg
      (FilterByRTTSymmetry (FilterByRTT cfg records))
    have hfst := RemoveOutliers_fst_length cfg
      (FilterByRTTSymmetry (FilterByRTT cfg records))
    exact_mod_cast hfst ▸ hle
  · exact (calculateRTTStats_min_le_mean_le_max _).1
  · exact (calculateRTTStats_min_le_mean_le_max _).2
  · exact (calculateConfidence_mem_unit _ _ _).1
  · exact (calculateConfidence_mem_unit _ _ _).2

/-! ### C3 — best offset is the median of the valid offsets -/

/-- The spec's description of the burst median: sort the offsets
ascending; an odd count takes the middle element, an even count the
truncated (Go `int64`) average of the two middle elements; an empty list
gives 0. -/
def medianOfInts (l : List ℤ) : ℤ :=
  if l.length = 0 then 0
  else
    let sorted := l.insertionSort (· ≤ ·)
    if l.length % 2 = 0 then
      Int.tdiv (sorted.getD (l.length / 2 - 1) 0 + sorted.getD (l.length / 2) 0) 2
    else sorted.getD (l.length / 2) 0

/-- The code's median over analyses is the spec median of their
offsets. -/
theorem calculateMedianOffset_eq_medianOfInts (analyses : List SampleAnalysis) :
    calculateMedianOffset analyses =
      medianOfInts (analyses.map fun a => a.Offset) := by
  simp only [calculateMedianOffset, medianOfInts, List.length_map]

/-- C3: in every aggregated result, `BestOffset = MedianOffset`, and both
equal the median of the compensated offsets of the surviving valid
samples — middle element for an odd count, integer average of the two
middle elements of the sorted offsets for an even count (the content of
`medianOfInts`). -/
theorem SelectBestMeasurements_bestOffset_median (cfg : NTPFilterConfig)
    (records : List TimeSyncRecord) (result : AggregatedSyncResult)
    (h : SelectBestMeasurements cfg records = .ok result) :
    result.BestOffset = result.MedianOffset ∧
    result.MedianOffset =
      medianOfInts
        (((RemoveOutliers cfg
            (FilterByRTTSymmetry (FilterByRTT cfg records))).2).map
          fun a => a.Offset) := by
  simp only [SelectBestMeasurements] at h
  split_ifs at h with h0 h1
  rw [Except.ok.injEq] at h
  subst h
  exact ⟨rfl, calculateMedianOffset_eq_medianOfInts _⟩

/-! ### Concrete aggregated results for the C3/C6 witnesses -/

/-- The aggregated result of a one-sample burst over
`refinementRecord 0 1000 0 1000` under the default configuration. -/
def selectorWitnessResult : AggregatedSyncResult :=
  { AggregationID := ""
    PairingID := ""
    BestOffset := 0
    MedianOffset := 0
    MeanOffset := 0
    OffsetVariance := 0
    MinRTT := 2000
    MaxRTT := 2000
    MeanRTT := 2000
    RTTVariance := 0
    TotalSamples := 1
    ValidSamples := 1
    OutlierCount := 0
    Measurements := [refinementRecord 0 1000 0 1000]
    CreatedAt := 0 }

/-- The aggregated result of a one-sample burst over
`refinementRecord 7 1000 0 3000` (raw offset 7 ms, asymmetric RTTs, so
the compensated offset is 8 ms). -/
def medianWitnessResult : AggregatedSyncResult :=
  { AggregationID := ""
    PairingID := ""
    BestOffset := 8
    MedianOffset := 8
    MeanOffset := 8
    OffsetVariance := 0
    MinRTT := 4000
    MaxRTT := 4000
    MeanRTT := 4000
    RTTVariance := 0
    TotalSamples := 1
    ValidSamples := 1
    OutlierCount := 0
    Measurements := [refinementRecord 7 1000 0 3000]
    CreatedAt := 0 }

/-- C6 witness: on a concrete one-sample burst the selector produces
`selectorWitnessResult`, whose invariants follow from the general
theorem. -/
theorem SelectBestMeasurements_invariants_witness :
    SelectBestMeasurements ⟨3, 2, 1/2⟩ [refinementRecord 0 1000 0 1000] =
      .ok selectorWitnessResult ∧
    (selectorWitnessResult.MinRTT : ℚ) ≤ selectorWitnessResult.MeanRTT ∧
    0 ≤ selectorWitnessResult.Confidence ∧
    selectorWitnessResult.Confidence ≤ 1 := by
  have hc : (⌈(1 : ℚ) / 2⌉ : ℤ) = 1 := by
    rw [Int.ceil_eq_iff]
    norm_num
  have heval : SelectBestMeasurements ⟨3, 2, 1/2⟩
      [refinementRecord 0 1000 0 1000] = .ok selectorWitnessResult := by
    norm_num [SelectBestMeasurements, FilterByRTT, FilterByRTTSymmetry,
      RemoveOutliers, calculateStatistics, calculateMedianOffset,
      calculateOffsetStats, calculateRTTStats, analyzeRecord, refinementRecord,
      mathRound, absInt, selectorWitnessResult, hc, List.insertionSort,
      List.orderedInsert, List.filterMap]
  obtain ⟨-, -, -, h4, -, h6, h7⟩ :=
    SelectBestMeasurements_invariants ⟨3, 2, 1/2⟩
      [refinementRecord 0 1000 0 1000] selectorWitnessResult heval
  exact ⟨heval, h4, h6, h7⟩

/-- C3 witness: on a concrete one-sample burst the selector produces
`medianWitnessResult`, whose best offset equals its median offset. -/
theorem SelectBestMeasurements_bestOffset_median_witness :
    SelectBestMeasurements ⟨3, 2, 1/2⟩ [refinementRecord 7 1000 0 3000] =
      .ok medianWitnessResult ∧
    medianWitnessResult.BestOffset = medianWitnessResult.MedianOffset := by
  have hc : (⌈(1 : ℚ) / 2⌉ : ℤ) = 1 := by
    rw [Int.ceil_eq_iff]
    norm_num
  have heval : SelectBestMeasurements ⟨3, 2, 1/2⟩
      [refinementRecord 7 1000 0 3000] = .ok medianWitnessResult := by
    norm_num [SelectBestMeasurements, FilterByRTT, FilterByRTTSymmetry,
      RemoveOutliers, calculateStatistics, calculateMedianOffset,
      calculateOffsetStats, calculateRTTStats, analyzeRecord, refinementRecord,
      mathRound, absInt, medianWitnessResult, hc, List.insertionSort,
      List.orderedInsert, List.filterMap]
  exact ⟨heval,
    (SelectBestMeasurements_bestOffset_median ⟨3, 2, 1/2⟩
      [refinementRecord 7 1000 0 3000] medianWitnessResult heval).1⟩

end HeteroSync
